import Mathlib

/-!
Verification development for the raiden event-ingestion core:
`raiden/utils/filters.py` (StatelessFilter, the bounded log fetcher) and
`raiden/blockchain/state.py` (the confirmed-data resolvers).

The Python source is shallowly embedded: block numbers are `Int` (the
cursor starts at `-1`), external collaborators (the web3 RPC transport,
the chain-state views, the persisted-history storage) are oracle
functions supplied as parameters, and exceptions are `Except` values.
Each embedded operation that issues remote queries additionally returns
the list of queries it issued, in issue order, so that chunking and
retry behaviour can be stated.
-/

/-! Section: Block specifications and filter parameters (`raiden/utils/filters.py`) -/

/-- Raw log entries are opaque for the properties considered here. -/
abbrev Entry := Nat

/-- Block specification: either a concrete height or a symbolic name,
as accepted by web3 filter parameters. -/
inductive BlockSpec where
  | number (n : Int)
  | latest
  | pending
deriving DecidableEq, Repr

/-- Filter parameters relevant to the fetcher: the optional `fromBlock`
and `toBlock` entries of the filter dict.  Address and topics do not
influence any of the properties below and are omitted. -/
structure FilterParams where
  fromBlock : Option BlockSpec := none
  toBlock : Option BlockSpec := none
deriving DecidableEq, Repr

/-- The remote chain node, as consumed by the fetcher: its current block
height (for resolving "latest"/"pending") and the `eth_getLogs` endpoint,
which may fail (an exception in the source). -/
structure Web3 where
  latestBlock : Int
  pendingBlock : Int
  getLogs : FilterParams → Except Unit (List Entry)

/-- Modelled from the spec: `raiden.constants.GENESIS_BLOCK_NUMBER`
(imported by `filters.py`, not part of the two source files); the
genesis block height. -/
def GENESIS_BLOCK_NUMBER : Int := 0

/-- The maximum block range to query in a single filter query
(`filters.py` line 29). -/
def FILTER_MAX_BLOCK_RANGE : Int := 100000

/-- Modelled from the spec: `raiden.utils.block_specification_to_number`
(imported by `filters.py`, not part of the two source files); resolves a
symbolic block specifier to a numeric height via the chain node. -/
def block_specification_to_number (web3 : Web3) : BlockSpec → Int
  | .number n => n
  | .latest => web3.latestBlock
  | .pending => web3.pendingBlock

/-- Python truthiness of a block specification as it occurs in
`get_all_entries`: the int `0` is falsy, symbolic names are truthy. -/
def BlockSpec.truthy : BlockSpec → Bool
  | .number n => n ≠ 0
  | .latest => true
  | .pending => true

/-! Section: StatelessFilter -/

/-- Mutable state of a `StatelessFilter` instance: its fixed filter
parameters and the fetch cursor `_last_block`, initialised to `-1` by
`__init__`.  The gevent semaphore only serialises calls and is not
modelled (all properties below are about single sequential calls). -/
structure StatelessFilter where
  filter_params : FilterParams
  last_block : Int := -1
deriving DecidableEq, Repr

/-- Embedding of `StatelessFilter._do_get_new_entries`: copy the filter
params, override `fromBlock`/`toBlock`, issue one raw `eth_getLogs`
query, and on success advance `_last_block` to the numeric value of
`to_block`.  On failure the exception propagates with the state
unchanged. -/
def do_get_new_entries (web3 : Web3) (s : StatelessFilter)
    (from_block to_block : BlockSpec) :
    Except Unit (List Entry × StatelessFilter) :=
  let filter_params := { s.filter_params with
    fromBlock := some from_block, toBlock := some to_block }
  match web3.getLogs filter_params with
  | .error e => .error e
  | .ok result =>
      .ok (result,
        { s with last_block := block_specification_to_number web3 to_block })

/-- The `while from_block_number <= target_block_number` loop of
`get_new_entries`.  Returns the chunk ranges issued (in issue order),
the state after the call, and either the concatenated entries or the
propagated exception. -/
def getNewEntriesLoop (web3 : Web3) (target : Int) (fromBlock : Int)
    (s : StatelessFilter) :
    List (Int × Int) × StatelessFilter × Except Unit (List Entry) :=
  if _h : fromBlock ≤ target then
    let toBlock := min (fromBlock + FILTER_MAX_BLOCK_RANGE) target
    match do_get_new_entries web3 s (.number fromBlock) (.number toBlock) with
    | .error e => ([(fromBlock, toBlock)], s, .error e)
    | .ok (entries, s') =>
        let rest := getNewEntriesLoop web3 target
          (fromBlock + FILTER_MAX_BLOCK_RANGE) s'
        ((fromBlock, toBlock) :: rest.1, rest.2.1,
          rest.2.2.map (fun es => entries ++ es))
  else
    ([], s, .ok [])
termination_by (target + 1 - fromBlock).toNat
decreasing_by
  simp only [FILTER_MAX_BLOCK_RANGE]
  omega

/-- Embedding of `StatelessFilter.get_new_entries`. -/
def get_new_entries (web3 : Web3) (s : StatelessFilter) (target : Int) :
    List (Int × Int) × StatelessFilter × Except Unit (List Entry) :=
  let filter_from_number := block_specification_to_number web3
    (s.filter_params.fromBlock.getD (.number GENESIS_BLOCK_NUMBER))
  let from_block_number := max filter_from_number (s.last_block + 1)
  getNewEntriesLoop web3 target from_block_number s

/-- Embedding of `StatelessFilter.get_all_entries`.  The `block_number`
argument is `none` for the Python default `None`; `block_number or
self.web3.eth.blockNumber` is Python truthiness, so both `None` and `0`
fall back to the node's current height.  Returns the raw queries issued
(each the full filter-params dict), the state after the call, and the
result. -/
def get_all_entries (web3 : Web3) (s : StatelessFilter)
    (block_number_arg : Option Int) :
    List FilterParams × StatelessFilter × Except Unit (List Entry) :=
  let block_number :=
    match block_number_arg with
    | some n => if n = 0 then web3.latestBlock else n
    | none => web3.latestBlock
  let filter_params :=
    if s.filter_params.toBlock = some .latest ∨
        s.filter_params.toBlock = some .pending then
      { s.filter_params with toBlock := some (.number block_number) }
    else
      s.filter_params
  match web3.getLogs filter_params with
  | .error e => ([filter_params], s, .error e)
  | .ok result =>
      let s' :=
        match filter_params.toBlock with
        | some tb =>
            if tb.truthy then
              { s with last_block := block_specification_to_number web3 tb }
            else
              { s with last_block := block_number }
        | none => { s with last_block := block_number }
      ([filter_params], s', .ok result)

/-! Section: Data model for the resolvers (`raiden/blockchain/state.py`) -/

/-- Addresses are opaque identifiers here. -/
abbrev Address := Nat

abbrev ChainID := Nat

abbrev TokenNetworkAddress := Address

abbrev PaymentNetworkAddress := Address

abbrev TokenAddress := Address

abbrev ChannelID := Nat

abbrev Locksroot := Nat

abbrev BlockHash := Nat

/-- Block identifier passed to on-chain queries: the event's block hash
or a numeric height (the latest confirmed block). -/
inductive BlockId where
  | hash (h : BlockHash)
  | number (n : Int)
deriving DecidableEq, Repr

/-- The triple uniquely naming one payment channel
(`raiden.transfer.identifiers.CanonicalIdentifier`). -/
structure CanonicalIdentifier where
  chain_identifier : ChainID
  token_network_address : TokenNetworkAddress
  channel_identifier : ChannelID
deriving DecidableEq, Repr

/-- Decoded on-chain event, parametrised by its per-kind argument
structure; carries the originating contract address, the chain id and
the block hash from `event_data`. -/
structure DecodedEvent (Args : Type) where
  originating_contract : Address
  chain_id : ChainID
  block_hash : BlockHash
  args : Args
deriving DecidableEq, Repr

/-- Arguments of a `ChannelSettled` event. -/
structure ChannelSettledArgs where
  channel_identifier : ChannelID
deriving DecidableEq, Repr

/-- Arguments of a `ChannelNew` (ChannelOpened) event. -/
structure ChannelNewArgs where
  channel_identifier : ChannelID
  participant1 : Address
  participant2 : Address
deriving DecidableEq, Repr

/-- Arguments of a `ChannelClosed` event. -/
structure ChannelClosedArgs where
  channel_identifier : ChannelID
deriving DecidableEq, Repr

/-- Arguments of a `NonClosingBalanceProofUpdated` (UpdateTransfer)
event. -/
structure UpdateTransferArgs where
  channel_identifier : ChannelID
deriving DecidableEq, Repr

/-- Arguments of a `ChannelUnlocked` (ChannelBatchUnlock) event. -/
structure BatchUnlockArgs where
  sender : Address
  receiver : Address
  locksroot : Locksroot
deriving DecidableEq, Repr

/-- One side of a netting channel, as far as the resolvers read it. -/
structure NettingChannelEndState where
  address : Address
deriving DecidableEq, Repr

/-- Local channel state, as far as the resolvers read it. -/
structure NettingChannelState where
  canonical_identifier : CanonicalIdentifier
  our_state : NettingChannelEndState
  partner_state : NettingChannelEndState
deriving DecidableEq, Repr

/-- Modelled from the spec: the token-network state consulted by the
batch-unlock resolver; only its partner-address → channel-identifiers
map is read (`partneraddresses_to_channelidentifiers`, a defaultdict of
lists in the source, hence total). -/
structure TokenNetworkState where
  partneraddresses_to_channelidentifiers : Address → List ChannelID

/-- Modelled from the spec: the token-network registry state; only its
address is read. -/
structure TokenNetworkRegistryState where
  address : PaymentNetworkAddress
deriving DecidableEq, Repr

/-- Modelled from the spec: the local chain state together with the
read-only view capabilities the resolvers consult
(`views.get_channelstate_by_canonical_identifier`,
`views.get_token_network_by_address`,
`views.get_token_network_registry_by_token_network_address`). -/
structure ChainState where
  chain_id : ChainID
  our_address : Address
  channelstate_by_canonical_identifier :
    CanonicalIdentifier → Option NettingChannelState
  token_network_by_address : TokenNetworkAddress → Option TokenNetworkState
  token_network_registry_by_token_network_address :
    TokenNetworkAddress → Option TokenNetworkRegistryState

/-- Modelled from the spec: a balance proof as read by the unlock
resolver; only its canonical identifier is consulted. -/
structure BalanceProof where
  canonical_identifier : CanonicalIdentifier
deriving DecidableEq, Repr

/-- Payload of a persisted state-change or event record
(`record.data.balance_proof`). -/
structure RecordData where
  balance_proof : BalanceProof
deriving DecidableEq, Repr

/-- A persisted history record returned by the storage lookups. -/
structure StoredRecord where
  data : RecordData
deriving DecidableEq, Repr

/-- Modelled from the spec: the persisted-history capability
(`get_state_change_with_balance_proof_by_locksroot` keyed by canonical
identifier, locksroot and sender;
`get_event_with_balance_proof_by_locksroot` keyed by canonical
identifier, locksroot and recipient). -/
structure Storage where
  get_state_change_with_balance_proof_by_locksroot :
    CanonicalIdentifier → Locksroot → Address → Option StoredRecord
  get_event_with_balance_proof_by_locksroot :
    CanonicalIdentifier → Locksroot → Address → Option StoredRecord

/-- The RPC exceptions distinguished by the resolvers: `ValueError`
(raised in particular when the queried block has been pruned) and every
other transport failure. -/
inductive RpcError where
  | valueError
  | transport
deriving DecidableEq, Repr

/-- Diagnostic payload of the resolvers' `assert` failures, keeping the
identifying context of each message. -/
inductive AssertMsg where
  | tokenNetworkMissing
  | tokenNetworkRegistryMissing
  | unresolvedUnlock (locksroot : Locksroot) (partner : Address)
deriving DecidableEq, Repr

/-- A failure escaping a resolver: a propagated RPC exception or a
failed assertion. -/
inductive StateError where
  | rpc (e : RpcError)
  | assertionError (msg : AssertMsg)
deriving DecidableEq, Repr

/-- Resolver output for `ChannelSettled`. -/
structure ChannelSettleState where
  canonical_identifier : CanonicalIdentifier
  our_locksroot : Locksroot
  partner_locksroot : Locksroot
deriving DecidableEq, Repr

/-- On-chain data of one channel participant as returned by
`channel_proxy.detail`. -/
structure ParticipantDetails where
  address : Address
  deposit : Nat
deriving DecidableEq, Repr

/-- The `participants_data` of a channel detail query. -/
structure ParticipantsDetails where
  our_details : ParticipantDetails
  partner_details : ParticipantDetails
deriving DecidableEq, Repr

/-- Result of `channel_proxy.detail`. -/
structure ChannelDetails where
  participants_data : ParticipantsDetails
  token_address : TokenAddress
deriving DecidableEq, Repr

/-- Resolver output for `ChannelNew`. -/
structure NewChannelDetails where
  chain_id : ChainID
  payment_network_address : PaymentNetworkAddress
  token_address : TokenAddress
  our_address : Address
  our_initial_balance : Nat
  partner_address : Address
  partner_initial_balance : Nat
deriving DecidableEq, Repr

/-! Section: Confirmed-data resolvers (`raiden/blockchain/state.py`) -/

/-- Embedding of `get_contractreceivechannelsettled_data_from_event`.
The on-chain capability `get_onchain_locksroots` is an oracle taking the
canonical identifier, the two participants and a block identifier.  The
first component of the result is the list of block identifiers queried,
in issue order. -/
def get_contractreceivechannelsettled_data_from_event
    (get_onchain_locksroots :
      CanonicalIdentifier → Address → Address → BlockId →
        Except RpcError (Locksroot × Locksroot))
    (chain_state : ChainState)
    (event : DecodedEvent ChannelSettledArgs)
    (latest_confirmed_block : Int) :
    List BlockId × Except StateError (Option ChannelSettleState) :=
  let token_network_address : TokenNetworkAddress := event.originating_contract
  let channel_identifier := event.args.channel_identifier
  let block_hash := event.block_hash
  let canonical_identifier : CanonicalIdentifier :=
    ⟨chain_state.chain_id, token_network_address, channel_identifier⟩
  match chain_state.channelstate_by_canonical_identifier canonical_identifier with
  | none => ([], .ok none)
  | some channel_state =>
      match get_onchain_locksroots channel_state.canonical_identifier
          channel_state.our_state.address channel_state.partner_state.address
          (.hash block_hash) with
      | .ok (our_locksroot, partner_locksroot) =>
          ([.hash block_hash],
            .ok (some ⟨canonical_identifier, our_locksroot, partner_locksroot⟩))
      | .error .valueError =>
          match get_onchain_locksroots channel_state.canonical_identifier
              channel_state.our_state.address channel_state.partner_state.address
              (.number latest_confirmed_block) with
          | .ok (our_locksroot, partner_locksroot) =>
              ([.hash block_hash, .number latest_confirmed_block],
                .ok (some ⟨canonical_identifier, our_locksroot, partner_locksroot⟩))
          | .error e =>
              ([.hash block_hash, .number latest_confirmed_block],
                .error (.rpc e))
      | .error .transport => ([.hash block_hash], .error (.rpc .transport))

/-- Embedding of `get_contractreceiveupdatetransfer_data_from_event`:
derive the canonical identifier and return the local channel state
verbatim (or `none`); no on-chain query is issued (no chain-service
capability is even taken). -/
def get_contractreceiveupdatetransfer_data_from_event
    (chain_state : ChainState)
    (event : DecodedEvent UpdateTransferArgs) :
    Option NettingChannelState :=
  let channel_identifier := event.args.channel_identifier
  chain_state.channelstate_by_canonical_identifier
    ⟨chain_state.chain_id, event.originating_contract, channel_identifier⟩

/-- The `for channel_identifier in channel_identifiers` loop of
`get_contractreceivechannelbatchunlock_data_from_event`: for each
candidate, look up the persisted state-change history when the partner
is the unlock's sender, the persisted event history when the partner is
its receiver; the first candidate with a record wins and the record's
balance proof provides the canonical identifier. -/
def batchUnlockLoop (chain_state : ChainState) (storage : Storage)
    (token_network_address : TokenNetworkAddress) (locksroot : Locksroot)
    (sender receiver partner : Address) :
    List ChannelID → Option CanonicalIdentifier
  | [] => none
  | channel_identifier :: rest =>
      if partner = sender then
        match storage.get_state_change_with_balance_proof_by_locksroot
            ⟨chain_state.chain_id, token_network_address, channel_identifier⟩
            locksroot partner with
        | some state_change_record =>
            some state_change_record.data.balance_proof.canonical_identifier
        | none =>
            batchUnlockLoop chain_state storage token_network_address
              locksroot sender receiver partner rest
      else if partner = receiver then
        match storage.get_event_with_balance_proof_by_locksroot
            ⟨chain_state.chain_id, token_network_address, channel_identifier⟩
            locksroot partner with
        | some event_record =>
            some event_record.data.balance_proof.canonical_identifier
        | none =>
            batchUnlockLoop chain_state storage token_network_address
              locksroot sender receiver partner rest
      else
        batchUnlockLoop chain_state storage token_network_address
          locksroot sender receiver partner rest

/-- Embedding of `get_contractreceivechannelbatchunlock_data_from_event`.
Note the order of operations in the source: the token-network lookup and
its `assert` come before the participant-relevance check; the final
`assert canonical_identifier is not None, msg` carries the locksroot and
partner in its message. -/
def get_contractreceivechannelbatchunlock_data_from_event
    (chain_state : ChainState) (storage : Storage)
    (event : DecodedEvent BatchUnlockArgs) :
    Except StateError (Option CanonicalIdentifier) :=
  let token_network_address : TokenNetworkAddress := event.originating_contract
  let participant1 := event.args.receiver
  let participant2 := event.args.sender
  let locksroot := event.args.locksroot
  match chain_state.token_network_by_address token_network_address with
  | none => .error (.assertionError .tokenNetworkMissing)
  | some token_network_state =>
      let partnerChoice : Option Address :=
        if participant1 = chain_state.our_address then some participant2
        else if participant2 = chain_state.our_address then some participant1
        else none
      match partnerChoice with
      | none => .ok none
      | some partner =>
          let channel_identifiers :=
            token_network_state.partneraddresses_to_channelidentifiers partner
          match batchUnlockLoop chain_state storage token_network_address
              locksroot event.args.sender event.args.receiver partner
              channel_identifiers with
          | some canonical_identifier => .ok (some canonical_identifier)
          | none => .error (.assertionError (.unresolvedUnlock locksroot partner))

/-- Embedding of `get_contractreceivechannelnew_data_from_event`.  The
chain-service capability `channel_proxy.detail` is an oracle from the
canonical identifier and a block identifier.  The first component of the
result is the list of block identifiers queried, in issue order. -/
def get_contractreceivechannelnew_data_from_event
    (detail : CanonicalIdentifier → BlockId → Except RpcError ChannelDetails)
    (chain_state : ChainState)
    (event : DecodedEvent ChannelNewArgs)
    (latest_confirmed_block : Int) :
    List BlockId × Except StateError (Option NewChannelDetails) :=
  let token_network_address : TokenNetworkAddress := event.originating_contract
  let block_hash := event.block_hash
  let participant1 := event.args.participant1
  let participant2 := event.args.participant2
  let is_participant :=
    chain_state.our_address = participant1 ∨ chain_state.our_address = participant2
  if is_participant then
    let canonical_identifier : CanonicalIdentifier :=
      ⟨event.chain_id, token_network_address, event.args.channel_identifier⟩
    let finish : List BlockId → ChannelDetails →
        List BlockId × Except StateError (Option NewChannelDetails) :=
      fun queries channel_details =>
        match chain_state.token_network_registry_by_token_network_address
            token_network_address with
        | none => (queries, .error (.assertionError .tokenNetworkRegistryMissing))
        | some token_network_registry =>
            let our_details := channel_details.participants_data.our_details
            let partner_details := channel_details.participants_data.partner_details
            (queries, .ok (some
              { chain_id := event.chain_id
                payment_network_address := token_network_registry.address
                token_address := channel_details.token_address
                our_address := our_details.address
                our_initial_balance := our_details.deposit
                partner_address := partner_details.address
                partner_initial_balance := partner_details.deposit }))
    match detail canonical_identifier (.hash block_hash) with
    | .ok channel_details => finish [.hash block_hash] channel_details
    | .error .valueError =>
        match detail canonical_identifier (.number latest_confirmed_block) with
        | .ok channel_details =>
            finish [.hash block_hash, .number latest_confirmed_block]
              channel_details
        | .error e =>
            ([.hash block_hash, .number latest_confirmed_block], .error (.rpc e))
    | .error .transport => ([.hash block_hash], .error (.rpc .transport))
  else
    ([], .ok none)

/-- Embedding of `get_contractreceivechannelclosed_data_from_event`:
derive the canonical identifier, look up the local channel state and
return its canonical identifier when present; no on-chain query is
issued (no chain-service capability is even taken). -/
def get_contractreceivechannelclosed_data_from_event
    (chain_state : ChainState)
    (event : DecodedEvent ChannelClosedArgs) :
    Option CanonicalIdentifier :=
  let channel_identifier := event.args.channel_identifier
  match chain_state.channelstate_by_canonical_identifier
      ⟨chain_state.chain_id, event.originating_contract, channel_identifier⟩ with
  | some channel_state => some channel_state.canonical_identifier
  | none => none

/-! Section: Concrete instances used by witnesses and counterexamples -/

/-- A web3 stub whose every log query succeeds with no entries. -/
def web3AllOk : Web3 := ⟨0, 0, fun _ => .ok []⟩

/-- A web3 stub whose log queries fail exactly when the requested range
starts at block 100000 (the second chunk of a fresh 100002-block fetch). -/
def web3FailAt100000 : Web3 :=
  ⟨0, 0, fun p => if p.fromBlock = some (.number 100000) then .error () else .ok []⟩

/-- A freshly constructed StatelessFilter over genesis → latest:
`filter_params = {fromBlock: 0, toBlock: "latest"}`, `_last_block = -1`. -/
def freshFilter : StatelessFilter :=
  ⟨{ fromBlock := some (.number 0), toBlock := some .latest }, -1⟩

/-- A chain state with no local channels, token networks or registries;
local address 10. -/
def emptyChainState : ChainState :=
  ⟨1, 10, fun _ => none, fun _ => none, fun _ => none⟩

/-- A storage with no persisted records. -/
def emptyStorage : Storage := ⟨fun _ _ _ => none, fun _ _ _ => none⟩

/-- A batch-unlock event (contract 9, sender 20, receiver 30, locksroot
55) in which neither participant is the local address 10. -/
def irrelevantUnlockEvent : DecodedEvent BatchUnlockArgs :=
  ⟨9, 1, 0, ⟨20, 30, 55⟩⟩

/-! Section: Concrete instances for witnesses -/

/-- A settled event: contract 9, chain 1, block hash 77, channel 7. -/
def settledEventW : DecodedEvent ChannelSettledArgs := ⟨9, 1, 77, ⟨7⟩⟩

/-- A local channel state for channel `⟨1, 9, 7⟩`, ours address 10,
partner address 20. -/
def channelStateW : NettingChannelState := ⟨⟨1, 9, 7⟩, ⟨10⟩, ⟨20⟩⟩

/-- A chain state knowing exactly channel `⟨1, 9, 7⟩` and the registry
for token network 9. -/
def chainStateW : ChainState :=
  ⟨1, 10, fun cid => if cid = ⟨1, 9, 7⟩ then some channelStateW else none,
    fun _ => none, fun tna => if tna = 9 then some ⟨3⟩ else none⟩

/-- A locksroots oracle that reports block hash 77 as pruned and
succeeds elsewhere. -/
def locksrootsOracleW : CanonicalIdentifier → Address → Address → BlockId →
    Except RpcError (Locksroot × Locksroot) :=
  fun _ _ _ b => if b = .hash 77 then .error .valueError else .ok (41, 42)

/-- A `ChannelNew` event: contract 9, chain 1, block hash 78, channel 7,
participants 10 (local) and 20. -/
def newEventW : DecodedEvent ChannelNewArgs := ⟨9, 1, 78, ⟨7, 10, 20⟩⟩

/-- A channel-detail oracle that reports block hash 78 as pruned and
succeeds elsewhere. -/
def detailOracleW : CanonicalIdentifier → BlockId → Except RpcError ChannelDetails :=
  fun _ b => if b = .hash 78 then .error .valueError
    else .ok ⟨⟨⟨10, 100⟩, ⟨20, 200⟩⟩, 8⟩

/-- A token network whose partner 20 has the candidate channels 5, 7. -/
def unlockTnsW : TokenNetworkState := ⟨fun p => if p = 20 then [5, 7] else []⟩

/-- A chain state holding exactly token network 9 (`unlockTnsW`). -/
def unlockChainStateW : ChainState :=
  ⟨1, 10, fun _ => none, fun tna => if tna = 9 then some unlockTnsW else none,
    fun _ => none⟩

/-- A batch-unlock event: contract 9, sender 20, receiver 10 (the local
address), locksroot 55, so the partner is the sender 20. -/
def unlockEventW : DecodedEvent BatchUnlockArgs := ⟨9, 1, 0, ⟨20, 10, 55⟩⟩

/-- The stored record explaining the unlock: its balance proof carries
the canonical identifier of channel 7. -/
def unlockRecordW : StoredRecord := ⟨⟨⟨⟨1, 9, 7⟩⟩⟩⟩

/-- A storage holding exactly one state-change record: channel
`⟨1, 9, 7⟩`, locksroot 55, sender 20. -/
def unlockStorageW : Storage :=
  ⟨fun cid lr snd => if cid = ⟨1, 9, 7⟩ ∧ lr = 55 ∧ snd = 20
      then some unlockRecordW else none,
    fun _ _ _ => none⟩

/-- A `ChannelNew` event in which neither participant (20, 30) is the
local address 10. -/
def irrelevantNewEventW : DecodedEvent ChannelNewArgs := ⟨9, 1, 0, ⟨7, 20, 30⟩⟩

/-- A closed event for the locally present channel 7. -/
def closedEventW : DecodedEvent ChannelClosedArgs := ⟨9, 1, 0, ⟨7⟩⟩

/-- A closed event for the locally absent channel 8. -/
def closedEventAbsentW : DecodedEvent ChannelClosedArgs := ⟨9, 1, 0, ⟨8⟩⟩

/-- An update-transfer event for the locally present channel 7. -/
def updateEventW : DecodedEvent UpdateTransferArgs := ⟨9, 1, 0, ⟨7⟩⟩

/-- An update-transfer event for the locally absent channel 8. -/
def updateEventAbsentW : DecodedEvent UpdateTransferArgs := ⟨9, 1, 0, ⟨8⟩⟩

/-! Section: Helper lemmas -/

lemma getNewEntriesLoop_last_block_le (web3 : Web3) (target : Int) :
    ∀ (fromBlock : Int) (s : StatelessFilter),
    s.last_block ≤ fromBlock →
    s.last_block ≤ (getNewEntriesLoop web3 target fromBlock s).2.1.last_block := by
  intro fromBlock s
  induction fromBlock, s using getNewEntriesLoop.induct web3 target with
  | case1 fromBlock s hle toBlock e hx =>
      intro hsle
      rw [getNewEntriesLoop.eq_def]
      simp only [dif_pos hle]
      have hx' : do_get_new_entries web3 s (BlockSpec.number fromBlock)
          (BlockSpec.number ((fromBlock + FILTER_MAX_BLOCK_RANGE) ⊓ target)) =
          Except.error e := hx
      rw [hx']
  | case2 fromBlock s hle toBlock entries s' hx ih =>
      intro hsle
      rw [getNewEntriesLoop.eq_def]
      simp only [dif_pos hle]
      have hx' : do_get_new_entries web3 s (BlockSpec.number fromBlock)
          (BlockSpec.number ((fromBlock + FILTER_MAX_BLOCK_RANGE) ⊓ target)) =
          Except.ok (entries, s') := hx
      rw [hx']
      simp only
      have hs' : s'.last_block = (fromBlock + FILTER_MAX_BLOCK_RANGE) ⊓ target := by
        simp only [do_get_new_entries] at hx'
        rcases hgl : web3.getLogs { s.filter_params with
            fromBlock := some (BlockSpec.number fromBlock),
            toBlock := some (BlockSpec.number
              ((fromBlock + FILTER_MAX_BLOCK_RANGE) ⊓ target)) } with e | r
        · rw [hgl] at hx'; exact absurd hx' (by simp)
        · rw [hgl] at hx'
          simp only [Except.ok.injEq, Prod.mk.injEq] at hx'
          rw [← hx'.2]
          rfl
      have h1 : s'.last_block ≤ fromBlock + FILTER_MAX_BLOCK_RANGE := by
        rw [hs']; exact min_le_left _ _
      calc s.last_block ≤ fromBlock := hsle
        _ ≤ s'.last_block := by
            rw [hs']
            refine le_min ?_ hle
            simp only [FILTER_MAX_BLOCK_RANGE]
            omega
        _ ≤ _ := ih h1
  | case3 fromBlock s h =>
      intro _
      rw [getNewEntriesLoop.eq_def]
      simp only [dif_neg h]
      exact le_rfl

lemma batchUnlockLoop_eq_none (chain_state : ChainState) (storage : Storage)
    (tna : TokenNetworkAddress) (locksroot : Locksroot)
    (sender receiver partner : Address) (l : List ChannelID)
    (hnone : ∀ c ∈ l,
      storage.get_state_change_with_balance_proof_by_locksroot
        ⟨chain_state.chain_id, tna, c⟩ locksroot partner = none ∧
      storage.get_event_with_balance_proof_by_locksroot
        ⟨chain_state.chain_id, tna, c⟩ locksroot partner = none) :
    batchUnlockLoop chain_state storage tna locksroot sender receiver partner l
      = none := by
  induction l with
  | nil => rfl
  | cons c rest ih =>
      have hc := hnone c (List.mem_cons_self _ _)
      have hrest : ∀ x ∈ rest, _ ∧ _ :=
        fun x hx => hnone x (List.mem_cons_of_mem _ hx)
      simp only [batchUnlockLoop]
      by_cases h1 : partner = sender
      · simp only [if_pos h1, hc.1]
        exact ih hrest
      · by_cases h2 : partner = receiver
        · simp only [if_neg h1, if_pos h2, hc.2]
          exact ih hrest
        · simp only [if_neg h1, if_neg h2]
          exact ih hrest

lemma batchUnlockLoop_unique_match (chain_state : ChainState) (storage : Storage)
    (tna : TokenNetworkAddress) (locksroot : Locksroot)
    (sender receiver partner : Address)
    (hps : partner = sender ∨ partner = receiver)
    (l : List ChannelID) (c₀ : ChannelID) (r : StoredRecord)
    (hmem : c₀ ∈ l)
    (hmatch : (if partner = sender
        then storage.get_state_change_with_balance_proof_by_locksroot
          ⟨chain_state.chain_id, tna, c₀⟩ locksroot partner
        else storage.get_event_with_balance_proof_by_locksroot
          ⟨chain_state.chain_id, tna, c₀⟩ locksroot partner) = some r)
    (hunique : ∀ c ∈ l, c ≠ c₀ →
      (if partner = sender
        then storage.get_state_change_with_balance_proof_by_locksroot
          ⟨chain_state.chain_id, tna, c⟩ locksroot partner
        else storage.get_event_with_balance_proof_by_locksroot
          ⟨chain_state.chain_id, tna, c⟩ locksroot partner) = none) :
    batchUnlockLoop chain_state storage tna locksroot sender receiver partner l
      = some r.data.balance_proof.canonical_identifier := by
  induction l with
  | nil => exact absurd hmem (List.not_mem_nil c₀)
  | cons c rest ih =>
      by_cases hc : c = c₀
      · subst hc
        simp only [batchUnlockLoop]
        rcases hps with h1 | h2
        · rw [if_pos h1] at hmatch
          simp only [if_pos h1, hmatch]
        · by_cases h1 : partner = sender
          · rw [if_pos h1] at hmatch
            simp only [if_pos h1, hmatch]
          · rw [if_neg h1] at hmatch
            simp only [if_neg h1, if_pos h2, hmatch]
      · have hmem' : c₀ ∈ rest := by
          rcases List.mem_cons.mp hmem with h | h
          · exact absurd h.symm hc
          · exact h
        have hcnone := hunique c (List.mem_cons_self _ _) hc
        have hrest : ∀ x ∈ rest, x ≠ c₀ → _ = none :=
          fun x hx => hunique x (List.mem_cons_of_mem _ hx)
        have ih' := ih hmem' hrest
        simp only [batchUnlockLoop]
        by_cases h1 : partner = sender
        · rw [if_pos h1] at hcnone
          simp only [if_pos h1, hcnone]
          exact ih'
        · rcases hps with h | h2
          · exact absurd h h1
          · rw [if_neg h1] at hcnone
            simp only [if_neg h1, if_pos h2, hcnone]
            exact ih'

/-- Claim C1: `get_new_entries` with cursor `c < target` is claimed to
issue `ceil((target − c) / FILTER_MAX_BLOCK_RANGE)` chunked queries,
each spanning at most `FILTER_MAX_BLOCK_RANGE` blocks, non-overlapping,
whose union is `(c, target]`.  The code violates the size and overlap
parts: on a fresh filter (cursor `-1`) with target `100001` it issues
the two inclusive ranges `[0, 100000]` and `[100000, 100001]` — the
first spans `FILTER_MAX_BLOCK_RANGE + 1 = 100001` blocks and both
contain block `100000`, because `to_block = min(from +
FILTER_MAX_BLOCK_RANGE, target)` is inclusive while the next chunk
starts at `from + FILTER_MAX_BLOCK_RANGE`. -/
theorem get_new_entries_chunks_exceed_max_and_overlap :
    (get_new_entries web3AllOk freshFilter 100001).1 = [(0, 100000), (100000, 100001)] ∧
    FILTER_MAX_BLOCK_RANGE = 100000 := by
  constructor
  · simp [get_new_entries, getNewEntriesLoop, do_get_new_entries, web3AllOk,
      freshFilter, block_specification_to_number, FILTER_MAX_BLOCK_RANGE,
      GENESIS_BLOCK_NUMBER]
  · rfl

/-- Claim C2: a failed `get_new_entries` call is claimed to leave the
cursor `_last_block` unchanged.  The code advances the cursor inside
`_do_get_new_entries`, i.e. after every successful chunk: on a fresh
filter (cursor `-1`) with target `100001`, when the first chunk
`[0, 100000]` succeeds and the second fails, the call fails as a whole
but the cursor is left at `100000`, so the first chunk's
retrieved-and-discarded entries are skipped by any retry. -/
theorem get_new_entries_failure_advances_cursor :
    freshFilter.last_block = -1 ∧
    (get_new_entries web3FailAt100000 freshFilter 100001).2.2 = .error () ∧
    (get_new_entries web3FailAt100000 freshFilter 100001).2.1.last_block = 100000 := by
    
  refine ⟨rfl, ?_, ?_⟩ <;>
  simp [get_new_entries, getNewEntriesLoop, do_get_new_entries, web3FailAt100000,
    freshFilter, Except.map, block_specification_to_number,
    FILTER_MAX_BLOCK_RANGE, GENESIS_BLOCK_NUMBER]

/-- Claim C4 (counterexample): the cursor is claimed to be monotonically
non-decreasing over any sequence of `get_new_entries` and
`get_all_entries` calls.  After `get_new_entries` to target `500` (the
cursor becomes `500`), a `get_all_entries` call with supplied height
`100` on a filter whose `toBlock` is `"latest"` resets the cursor to
`100 < 500`. -/
theorem get_all_entries_cursor_can_decrease :
    (get_all_entries web3AllOk ((get_new_entries web3AllOk freshFilter 500).2.1)
        (some 100)).2.1.last_block
      < ((get_new_entries web3AllOk freshFilter 500).2.1).last_block := by
  simp [get_new_entries, getNewEntriesLoop, do_get_new_entries, get_all_entries,
    web3AllOk, freshFilter, block_specification_to_number, BlockSpec.truthy,
    FILTER_MAX_BLOCK_RANGE, GENESIS_BLOCK_NUMBER]

/-- Claim C4 (amended): the cursor `_last_block` is monotonically
non-decreasing across `get_new_entries` calls — with any argument, and
also on calls that fail part-way — while `get_all_entries` sets it to
the resolved `toBlock` (or the supplied/queried height), which may be
lower than its previous value. -/
theorem get_new_entries_cursor_monotone (web3 : Web3) (s : StatelessFilter)
    (target : Int) :
    s.last_block ≤ (get_new_entries web3 s target).2.1.last_block := by
  apply getNewEntriesLoop_last_block_le
  calc s.last_block ≤ s.last_block + 1 := by omega
    _ ≤ _ := le_max_right _ _

/-- Claim C10: `get_all_entries` performs the entire retrieval as a
single raw log query over the full filter range: exactly one raw query
is issued, its `fromBlock` is the filter's own `fromBlock` (the range is
never split into `FILTER_MAX_BLOCK_RANGE`-bounded chunks), and its
`toBlock` is the filter's own `toBlock`, except that a symbolic
`"latest"`/`"pending"` is first resolved to a numeric height. -/
theorem get_all_entries_single_full_range_query (web3 : Web3)
    (s : StatelessFilter) (block_number_arg : Option Int) :
    ∃ q : FilterParams,
      (get_all_entries web3 s block_number_arg).1 = [q] ∧
      q.fromBlock = s.filter_params.fromBlock ∧
      (q.toBlock = s.filter_params.toBlock ∨
        ((s.filter_params.toBlock = some .latest ∨
            s.filter_params.toBlock = some .pending) ∧
          ∃ n : Int, q.toBlock = some (.number n))) := by
  unfold get_all_entries
  by_cases hsym : s.filter_params.toBlock = some .latest ∨
      s.filter_params.toBlock = some .pending
  · simp only [if_pos hsym]
    rcases web3.getLogs _ with e | r
    · exact ⟨_, rfl, rfl, .inr ⟨hsym, _, rfl⟩⟩
    · exact ⟨_, rfl, rfl, .inr ⟨hsym, _, rfl⟩⟩
  · simp only [if_neg hsym]
    rcases web3.getLogs _ with e | r
    · exact ⟨_, rfl, rfl, .inl rfl⟩
    · exact ⟨_, rfl, rfl, .inl rfl⟩

/-- Claim C3: for both resolvers that perform an on-chain query
(ChannelSettled via `get_onchain_locksroots`, ChannelNew via the channel
detail query), if the first query at the event's block hash fails with
the pruned-block condition (`ValueError`), the resolver issues exactly
one retry at the supplied latest confirmed block — the queries issued
are precisely the block-hash query followed by the latest-confirmed
query, never a third — and returns the result built from that retry; if
the retry itself fails, the failure propagates. -/
theorem pruned_block_single_retry
    (get_onchain_locksroots : CanonicalIdentifier → Address → Address → BlockId →
      Except RpcError (Locksroot × Locksroot))
    (detail : CanonicalIdentifier → BlockId → Except RpcError ChannelDetails)
    (chain_state chain_stateN : ChainState)
    (eventS : DecodedEvent ChannelSettledArgs) (eventN : DecodedEvent ChannelNewArgs)
    (latest latestN : Int) (channel_state : NettingChannelState)
    (hcs : chain_state.channelstate_by_canonical_identifier
        ⟨chain_state.chain_id, eventS.originating_contract,
          eventS.args.channel_identifier⟩ = some channel_state)
    (hpruned : get_onchain_locksroots channel_state.canonical_identifier
        channel_state.our_state.address channel_state.partner_state.address
        (.hash eventS.block_hash) = .error .valueError)
    (hpart : chain_stateN.our_address = eventN.args.participant1 ∨
        chain_stateN.our_address = eventN.args.participant2)
    (hprunedN : detail ⟨eventN.chain_id, eventN.originating_contract,
        eventN.args.channel_identifier⟩ (.hash eventN.block_hash) =
        .error .valueError) :
    ((get_contractreceivechannelsettled_data_from_event get_onchain_locksroots
        chain_state eventS latest).1 =
      [.hash eventS.block_hash, .number latest]) ∧
    (∀ l1 l2, get_onchain_locksroots channel_state.canonical_identifier
        channel_state.our_state.address channel_state.partner_state.address
        (.number latest) = .ok (l1, l2) →
      (get_contractreceivechannelsettled_data_from_event get_onchain_locksroots
          chain_state eventS latest).2 =
        .ok (some ⟨⟨chain_state.chain_id, eventS.originating_contract,
          eventS.args.channel_identifier⟩, l1, l2⟩)) ∧
    (∀ e, get_onchain_locksroots channel_state.canonical_identifier
        channel_state.our_state.address channel_state.partner_state.address
        (.number latest) = .error e →
      (get_contractreceivechannelsettled_data_from_event get_onchain_locksroots
          chain_state eventS latest).2 = .error (.rpc e)) ∧
    ((get_contractreceivechannelnew_data_from_event detail chain_stateN
        eventN latestN).1 = [.hash eventN.block_hash, .number latestN]) ∧
    (∀ cd reg, detail ⟨eventN.chain_id, eventN.originating_contract,
          eventN.args.channel_identifier⟩ (.number latestN) = .ok cd →
      chain_stateN.token_network_registry_by_token_network_address
          eventN.originating_contract = some reg →
      (get_contractreceivechannelnew_data_from_event detail chain_stateN
          eventN latestN).2 =
        .ok (some ⟨eventN.chain_id, reg.address, cd.token_address,
          cd.participants_data.our_details.address,
          cd.participants_data.our_details.deposit,
          cd.participants_data.partner_details.address,
          cd.participants_data.partner_details.deposit⟩)) ∧
    (∀ e, detail ⟨eventN.chain_id, eventN.originating_contract,
          eventN.args.channel_identifier⟩ (.number latestN) = .error e →
      (get_contractreceivechannelnew_data_from_event detail chain_stateN
          eventN latestN).2 = .error (.rpc e)) := by
  refine ⟨?_, ?_, ?_, ?_, ?_, ?_⟩
  · unfold get_contractreceivechannelsettled_data_from_event
    simp only [hcs, hpruned]
    rcases get_onchain_locksroots channel_state.canonical_identifier
        channel_state.our_state.address channel_state.partner_state.address
        (.number latest) with e | ⟨l1, l2⟩ <;> rfl
  · intro l1 l2 hretry
    unfold get_contractreceivechannelsettled_data_from_event
    simp only [hcs, hpruned, hretry]
  · intro e hretry
    unfold get_contractreceivechannelsettled_data_from_event
    simp only [hcs, hpruned, hretry]
  · unfold get_contractreceivechannelnew_data_from_event
    simp only [if_pos hpart, hprunedN]
    rcases detail ⟨eventN.chain_id, eventN.originating_contract,
        eventN.args.channel_identifier⟩ (.number latestN) with e | cd
    · rfl
    · rcases chain_stateN.token_network_registry_by_token_network_address
          eventN.originating_contract with _ | reg <;> rfl
  · intro cd reg hretry hreg
    unfold get_contractreceivechannelnew_data_from_event
    simp only [if_pos hpart, hprunedN, hretry, hreg]
  · intro e hretry
    unfold get_contractreceivechannelnew_data_from_event
    simp only [if_pos hpart, hprunedN, hretry]

/-- Claim C5: for a `ChannelBatchUnlock` event whose partner has
candidate channel identifiers in local state, none of which has a
matching stored balance-proof record for the event's locksroot, the
resolver fails with the unrecoverable assertion error identifying the
locksroot and the partner address, rather than returning `none`. -/
theorem batchunlock_exhausted_candidates_assertion
    (chain_state : ChainState) (storage : Storage)
    (event : DecodedEvent BatchUnlockArgs)
    (tns : TokenNetworkState) (partner : Address) (l : List ChannelID)
    (htn : chain_state.token_network_by_address event.originating_contract =
      some tns)
    (hrel : event.args.receiver = chain_state.our_address ∨
      event.args.sender = chain_state.our_address)
    (hpartner : partner = if event.args.receiver = chain_state.our_address
      then event.args.sender else event.args.receiver)
    (hcands : tns.partneraddresses_to_channelidentifiers partner = l)
    (_hne : l ≠ [])
    (hnomatch : ∀ c ∈ l,
      storage.get_state_change_with_balance_proof_by_locksroot
        ⟨chain_state.chain_id, event.originating_contract, c⟩
        event.args.locksroot partner = none ∧
      storage.get_event_with_balance_proof_by_locksroot
        ⟨chain_state.chain_id, event.originating_contract, c⟩
        event.args.locksroot partner = none) :
    get_contractreceivechannelbatchunlock_data_from_event chain_state storage
        event =
      .error (.assertionError (.unresolvedUnlock event.args.locksroot partner)) := by
  have hloop := batchUnlockLoop_eq_none chain_state storage
    event.originating_contract event.args.locksroot
    event.args.sender event.args.receiver partner l hnomatch
  unfold get_contractreceivechannelbatchunlock_data_from_event
  simp only [htn]
  by_cases hrcv : event.args.receiver = chain_state.our_address
  · rw [if_pos hrcv] at hpartner
    subst hpartner
    simp only [if_pos hrcv, hcands, hloop]
  · rcases hrel with h | h
    · exact absurd h hrcv
    · rw [if_neg hrcv] at hpartner
      subst hpartner
      simp only [if_neg hrcv, if_pos h, hcands, hloop]

/-- Claim C6: for a `ChannelBatchUnlock` event and a partner with
candidate channel identifiers of which exactly one has a matching
stored balance-proof record for the event's locksroot (a record whose
balance proof carries that channel's canonical identifier), the
resolver returns that channel's canonical identifier, for every
enumeration order and content of the other, non-matching candidates. -/
theorem batchunlock_unique_match_canonical_id
    (chain_state : ChainState) (storage : Storage)
    (event : DecodedEvent BatchUnlockArgs)
    (tns : TokenNetworkState) (partner : Address) (l : List ChannelID)
    (c₀ : ChannelID) (r : StoredRecord)
    (htn : chain_state.token_network_by_address event.originating_contract =
      some tns)
    (hrel : event.args.receiver = chain_state.our_address ∨
      event.args.sender = chain_state.our_address)
    (hpartner : partner = if event.args.receiver = chain_state.our_address
      then event.args.sender else event.args.receiver)
    (hcands : tns.partneraddresses_to_channelidentifiers partner = l)
    (hmem : c₀ ∈ l)
    (hmatch : (if partner = event.args.sender
        then storage.get_state_change_with_balance_proof_by_locksroot
          ⟨chain_state.chain_id, event.originating_contract, c₀⟩
          event.args.locksroot partner
        else storage.get_event_with_balance_proof_by_locksroot
          ⟨chain_state.chain_id, event.originating_contract, c₀⟩
          event.args.locksroot partner) = some r)
    (hr : r.data.balance_proof.canonical_identifier =
      ⟨chain_state.chain_id, event.originating_contract, c₀⟩)
    (hunique : ∀ c ∈ l, c ≠ c₀ →
      (if partner = event.args.sender
        then storage.get_state_change_with_balance_proof_by_locksroot
          ⟨chain_state.chain_id, event.originating_contract, c⟩
          event.args.locksroot partner
        else storage.get_event_with_balance_proof_by_locksroot
          ⟨chain_state.chain_id, event.originating_contract, c⟩
          event.args.locksroot partner) = none) :
    get_contractreceivechannelbatchunlock_data_from_event chain_state storage
        event =
      .ok (some ⟨chain_state.chain_id, event.originating_contract, c₀⟩) := by
  have hps : partner = event.args.sender ∨ partner = event.args.receiver := by
    by_cases hrcv : event.args.receiver = chain_state.our_address
    · rw [if_pos hrcv] at hpartner; exact .inl hpartner
    · rw [if_neg hrcv] at hpartner; exact .inr hpartner
  have hloop := batchUnlockLoop_unique_match chain_state storage
    event.originating_contract event.args.locksroot
    event.args.sender event.args.receiver partner hps l c₀ r hmem hmatch hunique
  rw [hr] at hloop
  unfold get_contractreceivechannelbatchunlock_data_from_event
  simp only [htn]
  by_cases hrcv : event.args.receiver = chain_state.our_address
  · rw [if_pos hrcv] at hpartner
    subst hpartner
    simp only [if_pos hrcv, hcands, hloop]
  · rcases hrel with h | h
    · exact absurd h hrcv
    · rw [if_neg hrcv] at hpartner
      subst hpartner
      simp only [if_neg hrcv, if_pos h, hcands, hloop]

/-- Claim C7 (counterexample): the claim states that for every decoded
event in which neither participant address equals the local node's
address, every resolver returns `none` and does not raise.  For a
`ChannelBatchUnlock` event whose originating token network is absent
from local state, the resolver fails on the token-network assertion
even though neither `sender` nor `receiver` is the local address. -/
theorem batchunlock_not_participant_can_raise :
    emptyChainState.our_address ≠ irrelevantUnlockEvent.args.sender ∧
    emptyChainState.our_address ≠ irrelevantUnlockEvent.args.receiver ∧
    get_contractreceivechannelbatchunlock_data_from_event emptyChainState
        emptyStorage irrelevantUnlockEvent =
      .error (.assertionError .tokenNetworkMissing) :=
  ⟨by decide, by decide, rfl⟩

/-- Claim C7 (amended): for every decoded event in which neither
participant address equals the local node's address, the `ChannelNew`
resolver returns `none` without issuing any on-chain query, and the
`ChannelBatchUnlock` resolver returns `none` provided the originating
token network exists in local state (its absence fails the resolver's
assertion before the participant check). -/
theorem not_participant_returns_none
    (detail : CanonicalIdentifier → BlockId → Except RpcError ChannelDetails)
    (chain_state chain_stateB : ChainState) (storage : Storage)
    (eventN : DecodedEvent ChannelNewArgs) (eventB : DecodedEvent BatchUnlockArgs)
    (latest_confirmed_block : Int) (tns : TokenNetworkState)
    (h1 : chain_state.our_address ≠ eventN.args.participant1)
    (h2 : chain_state.our_address ≠ eventN.args.participant2)
    (htn : chain_stateB.token_network_by_address eventB.originating_contract =
      some tns)
    (h3 : eventB.args.receiver ≠ chain_stateB.our_address)
    (h4 : eventB.args.sender ≠ chain_stateB.our_address) :
    get_contractreceivechannelnew_data_from_event detail chain_state eventN
        latest_confirmed_block = ([], .ok none) ∧
    get_contractreceivechannelbatchunlock_data_from_event chain_stateB storage
        eventB = .ok none := by
  constructor
  · unfold get_contractreceivechannelnew_data_from_event
    rw [if_neg]
    rintro (h | h)
    · exact h1 h
    · exact h2 h
  · unfold get_contractreceivechannelbatchunlock_data_from_event
    simp only [htn, if_neg h3, if_neg h4]

/-- Claim C8: the `ChannelClosed` and `UpdateTransfer` resolvers consult
only the local channel-state lookup at the derived canonical identifier
(chain id, originating contract, `channel_identifier` argument) and
issue no on-chain query (neither embedding takes a chain-service
capability): when the lookup is empty both return `none`; when it holds
a channel state, `ChannelClosed` returns its canonical identifier and
`UpdateTransfer` returns the channel state itself. -/
theorem closed_updatetransfer_local_lookup
    (chain_state : ChainState)
    (eventC : DecodedEvent ChannelClosedArgs)
    (eventU : DecodedEvent UpdateTransferArgs)
    (cs cs' : NettingChannelState) :
    (chain_state.channelstate_by_canonical_identifier
        ⟨chain_state.chain_id, eventC.originating_contract,
          eventC.args.channel_identifier⟩ = none →
      get_contractreceivechannelclosed_data_from_event chain_state eventC =
        none) ∧
    (chain_state.channelstate_by_canonical_identifier
        ⟨chain_state.chain_id, eventC.originating_contract,
          eventC.args.channel_identifier⟩ = some cs →
      get_contractreceivechannelclosed_data_from_event chain_state eventC =
        some cs.canonical_identifier) ∧
    (chain_state.channelstate_by_canonical_identifier
        ⟨chain_state.chain_id, eventU.originating_contract,
          eventU.args.channel_identifier⟩ = none →
      get_contractreceiveupdatetransfer_data_from_event chain_state eventU =
        none) ∧
    (chain_state.channelstate_by_canonical_identifier
        ⟨chain_state.chain_id, eventU.originating_contract,
          eventU.args.channel_identifier⟩ = some cs' →
      get_contractreceiveupdatetransfer_data_from_event chain_state eventU =
        some cs') := by
  refine ⟨?_, ?_, ?_, ?_⟩ <;> intro h <;>
    first
      | (unfold get_contractreceivechannelclosed_data_from_event
         simp only [h])
      | (unfold get_contractreceiveupdatetransfer_data_from_event
         simp only [h])

/-- Claim C9: the batch-unlock resolver asserts the presence of the
originating token network before the participant-relevance check: if
the token network is absent from local state the call fails with the
assertion error for every event — including events where neither
`sender` nor `receiver` is the local address — and consequently a
`none` result is only possible when the token network is present. -/
theorem batchunlock_token_network_assert_first
    (chain_state : ChainState) (storage : Storage)
    (event : DecodedEvent BatchUnlockArgs) :
    (chain_state.token_network_by_address event.originating_contract = none →
      get_contractreceivechannelbatchunlock_data_from_event chain_state storage
          event = .error (.assertionError .tokenNetworkMissing)) ∧
    (get_contractreceivechannelbatchunlock_data_from_event chain_state storage
          event = .ok none →
      (chain_state.token_network_by_address event.originating_contract).isSome) := by
  constructor
  · intro h
    unfold get_contractreceivechannelbatchunlock_data_from_event
    simp only [h]
  · intro h
    rcases htn : chain_state.token_network_by_address event.originating_contract
        with _ | tns
    · unfold get_contractreceivechannelbatchunlock_data_from_event at h
      simp [htn] at h
    · rfl

/-- Witness for `pruned_block_single_retry`: at the concrete oracles the
first query is pruned, and both resolvers issue exactly the block-hash
query followed by the latest-confirmed query. -/
theorem pruned_block_single_retry_witness :
    locksrootsOracleW ⟨1, 9, 7⟩ 10 20 (.hash 77) = .error .valueError ∧
    detailOracleW ⟨1, 9, 7⟩ (.hash 78) = .error .valueError ∧
    (get_contractreceivechannelsettled_data_from_event locksrootsOracleW
        chainStateW settledEventW 5).1 = [.hash 77, .number 5] ∧
    (get_contractreceivechannelnew_data_from_event detailOracleW chainStateW
        newEventW 5).1 = [.hash 78, .number 5] :=
  have h := pruned_block_single_retry locksrootsOracleW detailOracleW
    chainStateW chainStateW settledEventW newEventW 5 5 channelStateW
    rfl rfl (.inl rfl) rfl
  ⟨rfl, rfl, h.1, h.2.2.2.1⟩

/-- Witness for `batchunlock_exhausted_candidates_assertion`: partner 20
has candidates 5 and 7, the storage has no matching record, and the
resolver fails with the unresolved-unlock assertion naming locksroot 55
and partner 20. -/
theorem batchunlock_exhausted_candidates_assertion_witness :
    unlockTnsW.partneraddresses_to_channelidentifiers 20 = [5, 7] ∧
    get_contractreceivechannelbatchunlock_data_from_event unlockChainStateW
        emptyStorage unlockEventW =
      .error (.assertionError (.unresolvedUnlock 55 20)) :=
  ⟨by decide, batchunlock_exhausted_candidates_assertion unlockChainStateW
    emptyStorage unlockEventW unlockTnsW 20 [5, 7] rfl (.inl rfl) (by decide)
    (by decide) (by decide) (by decide)⟩

/-- Witness for `batchunlock_unique_match_canonical_id`: of partner 20's
candidates 5 and 7 only channel 7 has a stored record, and the resolver
returns channel 7's canonical identifier. -/
theorem batchunlock_unique_match_canonical_id_witness :
    unlockTnsW.partneraddresses_to_channelidentifiers 20 = [5, 7] ∧
    get_contractreceivechannelbatchunlock_data_from_event unlockChainStateW
        unlockStorageW unlockEventW = .ok (some ⟨1, 9, 7⟩) :=
  ⟨by decide, batchunlock_unique_match_canonical_id unlockChainStateW
    unlockStorageW unlockEventW unlockTnsW 20 [5, 7] 7 unlockRecordW rfl
    (.inl rfl) (by decide) (by decide) (by decide) (by decide) (by decide)
    (by decide)⟩

/-- Witness for `not_participant_returns_none`: a `ChannelNew` event with
participants 20, 30 and a batch-unlock event with sender 20, receiver 30
are both resolved to `none` by the node with address 10 (the batch
unlock under a chain state that does hold token network 9). -/
theorem not_participant_returns_none_witness :
    emptyChainState.our_address ≠ irrelevantNewEventW.args.participant1 ∧
    unlockChainStateW.token_network_by_address 9 = some unlockTnsW ∧
    get_contractreceivechannelnew_data_from_event detailOracleW emptyChainState
        irrelevantNewEventW 5 = ([], .ok none) ∧
    get_contractreceivechannelbatchunlock_data_from_event unlockChainStateW
        emptyStorage irrelevantUnlockEvent = .ok none :=
  have h := not_participant_returns_none detailOracleW emptyChainState
    unlockChainStateW emptyStorage irrelevantNewEventW irrelevantUnlockEvent 5
    unlockTnsW (by decide) (by decide) rfl (by decide) (by decide)
  ⟨by decide, rfl, h.1, h.2⟩

/-- Witness for `closed_updatetransfer_local_lookup`: with channel 7
present locally and channel 8 absent, the closed resolver returns the
canonical identifier / `none` and the update-transfer resolver returns
the channel state / `none`. -/
theorem closed_updatetransfer_local_lookup_witness :
    get_contractreceivechannelclosed_data_from_event chainStateW
        closedEventW = some ⟨1, 9, 7⟩ ∧
    get_contractreceivechannelclosed_data_from_event chainStateW
        closedEventAbsentW = none ∧
    get_contractreceiveupdatetransfer_data_from_event chainStateW
        updateEventW = some channelStateW ∧
    get_contractreceiveupdatetransfer_data_from_event chainStateW
        updateEventAbsentW = none :=
  ⟨(closed_updatetransfer_local_lookup chainStateW closedEventW updateEventW
      channelStateW channelStateW).2.1 (by decide),
   (closed_updatetransfer_local_lookup chainStateW closedEventAbsentW
      updateEventW channelStateW channelStateW).1 (by decide),
   (closed_updatetransfer_local_lookup chainStateW closedEventW updateEventW
      channelStateW channelStateW).2.2.2 (by decide),
   (closed_updatetransfer_local_lookup chainStateW closedEventW
      updateEventAbsentW channelStateW channelStateW).2.2.1 (by decide)⟩

/-- Witness for `batchunlock_token_network_assert_first`: with no token
network in local state, the resolver fails on the assertion for an
event in which neither participant is local. -/
theorem batchunlock_token_network_assert_first_witness :
    emptyChainState.token_network_by_address 9 = none ∧
    get_contractreceivechannelbatchunlock_data_from_event emptyChainState
        emptyStorage irrelevantUnlockEvent =
      .error (.assertionError .tokenNetworkMissing) :=
  ⟨rfl, (batchunlock_token_network_assert_first emptyChainState emptyStorage
    irrelevantUnlockEvent).1 rfl⟩
